import Mathlib

/-!
Shallow embedding of the Werewolf game engine of
`MaiBot/plugins/Kristen23557_Werewolves-Master-Plugin/plugin.py`.

Conventions of the embedding:
* Python dicts keyed by player id (`game["players"]`) are modelled as
  `List Player` in insertion order (which in the source always coincides
  with `player_order` / seat order); `game["votes"]` is an association
  list `List (String × Nat)` from voter id to target seat.
* The raw string values stored in `night_actions` are always produced by
  command handlers that have already validated them as integers, so the
  embedding stores the parsed numbers directly; an absent key and an
  unparseable value behave identically in every processor (`try/except
  ValueError: pass`), and both are modelled as `none`.
* Command arguments (the text after the verb) are modelled as the list of
  parsed integer tokens: `int(args)` succeeds exactly on a single token,
  `swap`/`choose` read the first two tokens.
* Message sending, timestamps and file persistence are side effects with
  no influence on the game state and are dropped; `random.shuffle` is
  modelled by passing in the shuffled list together with a permutation
  hypothesis.
* A `KeyError` on a player id that is not in the room (unreachable in the
  source because ids are validated on entry) is modelled as a no-op.
-/

set_option linter.unusedVariables false

namespace Werewolf

/-- Game phases, from the `GamePhase` enum. -/
inductive GamePhase where
  | setup | night | day | vote | hunter_revenge | witch_save_phase | ended
deriving DecidableEq, Repr

/-- Player statuses, from the `PlayerStatus` enum. -/
inductive PlayerStatus where
  | alive | dead | exiled
deriving DecidableEq, Repr

/-- Death reasons, from the `DeathReason` enum. -/
inductive DeathReason where
  | wolf_kill | vote | poison | hunter_shoot | suicide | white_wolf | lover_suicide
deriving DecidableEq, Repr

/-- Camps, from the `Camp` enum. -/
inductive Camp where
  | village | wolf | third_party | lover
deriving DecidableEq, Repr

/-- Witch potion statuses, from the `WitchStatus` enum. -/
inductive WitchStatus where
  | has_both | has_save_only | has_poison_only | used_both
deriving DecidableEq, Repr

/-- Role identifiers, the keys of the `ROLES` catalog. -/
inductive Role where
  | villager | seer | witch | hunter | wolf | hidden_wolf | guard | magician
  | double_faced | spiritualist | successor | painter | white_wolf | cupid
deriving DecidableEq, Repr

/-- The `camp` column of the `ROLES` catalog. -/
def roleCamp : Role → Camp
  | .villager => .village
  | .seer => .village
  | .witch => .village
  | .hunter => .village
  | .wolf => .wolf
  | .hidden_wolf => .wolf
  | .guard => .village
  | .magician => .village
  | .double_faced => .third_party
  | .spiritualist => .village
  | .successor => .village
  | .painter => .wolf
  | .white_wolf => .wolf
  | .cupid => .third_party

/-- The `night_action` column of the `ROLES` catalog. -/
def roleNightAction : Role → Bool
  | .seer => true
  | .witch => true
  | .wolf => true
  | .guard => true
  | .magician => true
  | .spiritualist => true
  | .painter => true
  | .cupid => true
  | _ => false

/-- The `command` column of the `ROLES` catalog (`""` models Python `None`;
the comparison against it never succeeds for a real verb, matching the
fact that `action != None` is always true). -/
def roleCommandStr : Option Role → String
  | some .seer => "check"
  | some .witch => "save/poison"
  | some .hunter => "shoot"
  | some .wolf => "kill"
  | some .guard => "guard"
  | some .magician => "swap"
  | some .spiritualist => "inspect"
  | some .cupid => "choose"
  | some .painter => "disguise"
  | some .white_wolf => "explode"
  | _ => ""

/-- `roleNightAction` lifted to an optional role (`ROLES[None]` is
unreachable in the source; the lift returns `false`). -/
def roleNightActionOpt : Option Role → Bool
  | some r => roleNightAction r
  | none => false

/-- One seat of a room, the per-player dict created by
`create_game`/`join_game`.  The `camp` field models the `"camp"` key that
is only ever added by the double-faced camp flips (absent = `none`). -/
structure Player where
  qq : String
  name : String
  number : Nat
  role : Option Role
  original_role : Option Role
  status : PlayerStatus
  death_reason : Option DeathReason
  killer : Option String
  has_acted : Bool
  is_lover : Bool
  lover_partner : Option String
  camp : Option Camp
deriving DecidableEq, Repr

/-- An entry of `game["death_queue"]`. -/
structure DeathEntry where
  player_qq : String
  reason : DeathReason
  killer : String
deriving DecidableEq, Repr

/-- The `night_actions` dict.  Each field is one of the fixed action keys;
`none` models both an absent key and an unparseable stored value (the two
are indistinguishable to every processor). -/
structure NightActions where
  cupid : Option (Nat × Nat)
  guard : Option Nat
  wolf_kill : Option Nat
  seer : Option Nat
  witch_poison : Option Nat
  spiritualist : Option Nat
  magician : Option (Nat × Nat)
  painter : Option Nat
  witch_save : Option Nat
  witch_skip : Bool
deriving DecidableEq, Repr

/-- The empty `night_actions` dict. -/
def NightActions.empty : NightActions :=
  ⟨none, none, none, none, none, none, none, none, none, false⟩

/-- One game room, the dict built by `create_game`.  Timestamps,
`game_code`, `successor_skills` and other fields that never influence the
embedded control flow are omitted. -/
structure Game where
  room_id : String
  host : String
  group_id : String
  players : List Player
  settings_player_count : Nat
  settings_roles : List (Role × Nat)
  phase : GamePhase
  day_count : Nat
  night_actions : NightActions
  votes : List (String × Nat)
  death_queue : List DeathEntry
  lovers : List String
  guard_protected : Option Nat
  last_guard_target : Option Nat
  magician_swap : Option (Nat × Nat)
  painter_disguised : Option Role
  hidden_wolf_awakened : Bool
  white_wolf_exploded : Bool
  witch_status : WitchStatus
  witch_save_candidates : List (Nat × String)
  witch_used_save_this_night : Bool
  witch_used_poison_this_night : Bool
  winner : Option String
  saved_players : List String
deriving DecidableEq, Repr

/-- `_get_player_by_number`: first player with the given seat number. -/
def getPlayerByNumber (g : Game) (n : Nat) : Option Player :=
  g.players.find? (fun p => p.number == n)

/-- `_get_player_by_role`: first ALIVE player with the given role. -/
def getPlayerByRole (g : Game) (r : Role) : Option Player :=
  g.players.find? (fun p => p.role == some r && p.status == PlayerStatus.alive)

/-- Replace the first element satisfying `q` by its image under `f`
(Python mutates the first dict found by a linear scan). -/
def updateFirst (q : α → Bool) (f : α → α) : List α → List α
  | [] => []
  | x :: xs => if q x then f x :: xs else x :: updateFirst q f xs

/-- Mark a player dead with the given reason and killer. -/
def killUpdate (reason : DeathReason) (killer : String) (p : Player) : Player :=
  { p with status := PlayerStatus.dead, death_reason := some reason, killer := some killer }

/-- `_get_role_action_key` composed with the `in night_actions` test of
`_check_all_night_actions_completed`: whether the action key of the given
role is present. -/
def nightActionKeyPresent (na : NightActions) : Role → Bool
  | .seer => na.seer.isSome
  | .witch => na.witch_poison.isSome
  | .wolf => na.wolf_kill.isSome
  | .guard => na.guard.isSome
  | .magician => na.magician.isSome
  | .spiritualist => na.spiritualist.isSome
  | .cupid => na.cupid.isSome
  | .painter => na.painter.isSome
  | _ => false

/-- `_check_all_night_actions_completed`: every living player whose role
has a night ability (except the witch) has an action recorded. -/
def allNightActionsCompleted (g : Game) : Bool :=
  g.players.all (fun p =>
    match p.role with
    | some r =>
        !(p.status == PlayerStatus.alive && roleNightAction r && r != Role.witch)
          || nightActionKeyPresent g.night_actions r
    | none => true)

/-- `_calculate_potential_deaths`: provisional death list from the
wolf-kill target only — an existing, living, non-double-faced target.
Guard protection is NOT consulted. -/
def calculatePotentialDeaths (g : Game) : List (Nat × String) :=
  match g.night_actions.wolf_kill with
  | some n =>
      match getPlayerByNumber g n with
      | some t =>
          if t.status = PlayerStatus.alive ∧ t.role ≠ some Role.double_faced
          then [(n, t.name)] else []
      | none => []
  | none => []

/-- `_process_cupid_action`: pair the two chosen living seats as lovers. -/
def processCupidAction (g : Game) : Game :=
  match g.night_actions.cupid with
  | none => g
  | some (n1, n2) =>
      match getPlayerByNumber g n1, getPlayerByNumber g n2 with
      | some p1, some p2 =>
          if p1.status = PlayerStatus.alive ∧ p2.status = PlayerStatus.alive then
            let pls := updateFirst (fun p => p.number == n1)
              (fun p => { p with is_lover := true, lover_partner := some p2.qq }) g.players
            let pls := updateFirst (fun p => p.number == n2)
              (fun p => { p with is_lover := true, lover_partner := some p1.qq }) pls
            { g with players := pls, lovers := g.lovers ++ [p1.qq, p2.qq] }
          else g
      | _, _ => g

/-- `_process_guard_action`: protect the target unless it equals the
previous night's target; on a repeat the action is silently ignored and
neither `guard_protected` nor `last_guard_target` is written. -/
def processGuardAction (g : Game) : Game :=
  match g.night_actions.guard with
  | none => g
  | some n =>
      match getPlayerByNumber g n with
      | some t =>
          if t.status = PlayerStatus.alive then
            if some n ≠ g.last_guard_target then
              { g with guard_protected := some n, last_guard_target := some n }
            else g
          else g
      | none => g

/-- `_process_wolf_action`: guarded target survives; a double-faced target
survives and has its camp flipped to wolf; a witch-saved target survives;
otherwise the target joins the death queue with cause wolf-kill. -/
def processWolfAction (g : Game) : Game :=
  match g.night_actions.wolf_kill with
  | none => g
  | some n =>
      match getPlayerByNumber g n with
      | some t =>
          if t.status = PlayerStatus.alive then
            if some n = g.guard_protected then g
            else if t.role = some Role.double_faced then
              { g with players := (updateFirst (fun p => p.number == n)
                  (fun p => { p with camp := some Camp.wolf }) g.players) }
            else if g.saved_players.contains t.qq then g
            else { g with death_queue :=
                    g.death_queue ++ [⟨t.qq, DeathReason.wolf_kill, "wolf"⟩] }
          else g
      | none => g

/-- `_process_witch_poison_action`: deduct the poison charge; against a
spiritualist or double-faced target the poison silently fails, otherwise
the target joins the death queue with cause poison and killer = witch.
The target's aliveness is not re-checked here (as in the source). -/
def processWitchPoisonAction (g : Game) : Game :=
  match g.night_actions.witch_poison with
  | none => g
  | some n =>
      match getPlayerByRole g Role.witch with
      | none => g
      | some w =>
          match getPlayerByNumber g n with
          | none => g
          | some t =>
              if ¬(g.witch_status = WitchStatus.has_both ∨
                   g.witch_status = WitchStatus.has_poison_only) then g
              else
                let g1 := { g with
                  witch_used_poison_this_night := true,
                  witch_status :=
                    if g.witch_status = WitchStatus.has_both then WitchStatus.has_save_only
                    else if g.witch_status = WitchStatus.has_poison_only then WitchStatus.used_both
                    else g.witch_status }
                if t.role = some Role.spiritualist ∨ t.role = some Role.double_faced then g1
                else { g1 with death_queue :=
                        g1.death_queue ++ [⟨t.qq, DeathReason.poison, w.qq⟩] }

/-- `_process_magician_action`: record the pending seat swap. -/
def processMagicianAction (g : Game) : Game :=
  match g.night_actions.magician with
  | none => g
  | some (n1, n2) =>
      match getPlayerByNumber g n1, getPlayerByNumber g n2 with
      | some _, some _ => { g with magician_swap := some (n1, n2) }
      | _, _ => g

/-- `_process_painter_action`: disguise as an already-out player's role. -/
def processPainterAction (g : Game) : Game :=
  match g.night_actions.painter with
  | none => g
  | some n =>
      match getPlayerByNumber g n, getPlayerByRole g Role.painter with
      | some t, some _ =>
          if t.status ≠ PlayerStatus.alive then { g with painter_disguised := t.role }
          else g
      | _, _ => g

/-- Mark the player holding the given id dead (the in-place dict mutation
of `_execute_deaths`, applied to every entry with that key). -/
def killByQq (k : String) (reason : DeathReason) (killer : String)
    (l : List Player) : List Player :=
  l.map (fun p => if p.qq == k then killUpdate reason killer p else p)

/-- The body of the per-entry loop of `_execute_deaths`: kill a living
victim, then cascade-kill a living lover partner with cause lover-suicide
and killer = the victim. -/
def applyDeath (l : List Player) (e : DeathEntry) : List Player :=
  match l.find? (fun p => p.qq == e.player_qq) with
  | none => l
  | some v =>
      if v.status = PlayerStatus.alive then
        if v.is_lover then
          match v.lover_partner with
          | some pq =>
              match (killByQq e.player_qq e.reason e.killer l).find? (fun p => p.qq == pq) with
              | some lov =>
                  if lov.status = PlayerStatus.alive then
                    killByQq pq DeathReason.lover_suicide v.qq
                      (killByQq e.player_qq e.reason e.killer l)
                  else killByQq e.player_qq e.reason e.killer l
              | none => killByQq e.player_qq e.reason e.killer l
          | none => killByQq e.player_qq e.reason e.killer l
        else killByQq e.player_qq e.reason e.killer l
      else l

/-- `_execute_deaths`: apply every death-queue entry in order, then clear
the queue. -/
def executeDeaths (g : Game) : Game :=
  { g with players := g.death_queue.foldl applyDeath g.players, death_queue := [] }

/-- Count of living non-lover players whose ORIGINAL role belongs to the
given camp, as tallied by `_check_game_end`. -/
def campAlive (g : Game) (c : Camp) : Nat :=
  g.players.countP (fun p =>
    p.status == PlayerStatus.alive && !p.is_lover &&
      (match p.original_role with
       | some r => roleCamp r == c
       | none => false))

/-- Count of living lovers, as tallied by `_check_game_end`. -/
def loversAlive (g : Game) : Nat :=
  g.players.countP (fun p => p.status == PlayerStatus.alive && p.is_lover)

/-- The winner determination of `_check_game_end` (first matching rule),
over the original-role camp counts with the lover override. -/
def endWinner (g : Game) : Option String :=
  let v := campAlive g Camp.village
  let w := campAlive g Camp.wolf
  let t := campAlive g Camp.third_party
  let l := loversAlive g
  if w = 0 then some "village"
  else if v + t ≤ w then some "wolf"
  else if 0 < l ∧ v + w + t = 0 then some "lover"
  else if 0 < t ∧ v + w + l = 0 then some "third_party"
  else none

/-- `_check_game_end`: on a win, record the winner and move the phase to
ENDED (the manager's `archive_game` side effects — profile rollup and the
removal from the live room map — are outside the single-room state). -/
def checkGameEnd (g : Game) : Game × Bool :=
  match endWinner g with
  | some s => ({ g with winner := some s, phase := GamePhase.ended }, true)
  | none => (g, false)

/-- The straight-line ability pipeline of `_process_all_night_actions`,
up to and including death execution: cupid (night 1 only) → guard → wolf
→ seer (message only) → witch poison → spiritualist (message only) →
magician → painter (night 2 on) → execute deaths. -/
def nightSteps (g : Game) : Game :=
  let g := if g.day_count = 1 then processCupidAction g else g
  let g := processGuardAction g
  let g := processWolfAction g
  let g := processWitchPoisonAction g
  let g := processMagicianAction g
  let g := if 2 ≤ g.day_count then processPainterAction g else g
  executeDeaths g

/-- `_process_all_night_actions`: run the pipeline, check the win
condition, otherwise advance to DAY and clear the per-night state. -/
def processAllNightActions (g : Game) : Game × Bool :=
  let gd := nightSteps g
  if (checkGameEnd gd).2 then ((checkGameEnd gd).1, true)
  else ({ gd with
          phase := GamePhase.day,
          night_actions := NightActions.empty,
          witch_save_candidates := [],
          witch_used_save_this_night := false,
          witch_used_poison_this_night := false,
          saved_players := [] }, true)

/-- `process_night_actions`: once collection is complete, either enter the
witch-save sub-phase (witch alive with her save available and a non-empty
candidate list) or resolve the whole night. -/
def processNightActions (g : Game) : Game × Bool :=
  if ¬ allNightActionsCompleted g then (g, false)
  else
    match getPlayerByRole g Role.witch with
    | some _ =>
        if (g.witch_status = WitchStatus.has_both ∨
            g.witch_status = WitchStatus.has_save_only) ∧
           ¬ g.witch_used_save_this_night then
          let pds := calculatePotentialDeaths g
          let g1 := { g with witch_save_candidates := pds }
          if pds ≠ [] then ({ g1 with phase := GamePhase.witch_save_phase }, true)
          else processAllNightActions g1
        else processAllNightActions g
    | none => processAllNightActions g

/-- The `witch_status` transition of `process_witch_save_phase` on a save. -/
def witchStatusAfterSave : WitchStatus → WitchStatus
  | .has_both => .has_poison_only
  | .has_save_only => .used_both
  | s => s

/-- `process_witch_save_phase`: process a recorded `save` (only against a
candidate-list seat) or `skip`, then resolve the whole night. -/
def processWitchSavePhase (g : Game) : Game × Bool :=
  match getPlayerByRole g Role.witch with
  | none => processAllNightActions g
  | some _ =>
      match g.night_actions.witch_save with
      | some n =>
          let g1 :=
            if (g.witch_save_candidates.map Prod.fst).contains n then
              let g2 := { g with
                witch_used_save_this_night := true,
                witch_status := witchStatusAfterSave g.witch_status }
              match getPlayerByNumber g n with
              | some t => { g2 with saved_players := g2.saved_players ++ [t.qq] }
              | none => g2
            else g
          processAllNightActions g1
      | none =>
          if g.night_actions.witch_skip then
            processAllNightActions { g with witch_used_save_this_night := true }
          else processAllNightActions g

/-- Whether the given voter id belongs to a living player of the room. -/
def voterAlive (g : Game) (q : String) : Bool :=
  match g.players.find? (fun p => p.qq == q) with
  | some p => p.status == PlayerStatus.alive
  | none => false

/-- Number of living players. -/
def aliveCount (g : Game) : Nat :=
  g.players.countP (fun p => p.status == PlayerStatus.alive)

/-- Number of recorded votes whose voter is still alive. -/
def votedAliveCount (g : Game) : Nat :=
  g.votes.countP (fun vq => voterAlive g vq.1)

/-- The multiset of vote targets cast by living voters. -/
def voteTargets (g : Game) : List Nat :=
  (g.votes.filter (fun vq => voterAlive g vq.1)).map (fun vq => vq.2)

/-- The maximum tally over the distinct vote targets. -/
def maxVotes (g : Game) : Nat :=
  ((voteTargets g).dedup.map (fun n => (voteTargets g).count n)).foldr max 0

/-- The distinct seats achieving the maximum tally. -/
def voteCandidates (g : Game) : List Nat :=
  (voteTargets g).dedup.filter (fun n => (voteTargets g).count n == maxVotes g)

/-- The mutation applied to the exiled player in `process_vote`: status
exiled, cause vote, and the double-faced camp flip to village. -/
def exileUpdate (p : Player) : Player :=
  if p.role = some Role.double_faced then
    { p with status := PlayerStatus.exiled, death_reason := some DeathReason.vote, camp := some Camp.village }
  else
    { p with status := PlayerStatus.exiled, death_reason := some DeathReason.vote }

/-- The exile portion of `process_vote`: no votes or a tie among the
maximum leaves every player untouched; a unique maximum exiles the first
living player holding that seat. -/
def exileStep (g : Game) : Game :=
  if (voteTargets g).isEmpty then g
  else if 1 < (voteCandidates g).length then g
  else
    match voteCandidates g with
    | [n] => { g with players := (updateFirst
        (fun p => p.number == n && p.status == PlayerStatus.alive) exileUpdate g.players) }
    | _ => g

/-- Whether some dead or exiled hunter did not die by poison — the
condition that sends `process_vote` into HUNTER_REVENGE.  (As in the
source, this scans ALL dead hunters, not only this cycle's.) -/
def hunterRevengePending (g : Game) : Bool :=
  g.players.any (fun p =>
    (p.status == PlayerStatus.dead || p.status == PlayerStatus.exiled) &&
      p.role == some Role.hunter && p.death_reason != some DeathReason.poison)

/-- `process_vote`: once every living player has voted, resolve the exile,
then either enter HUNTER_REVENGE or advance to the next NIGHT.  Note that
no win-condition check occurs on this path. -/
def processVote (g : Game) : Game × Bool :=
  if votedAliveCount g < aliveCount g then (g, false)
  else if hunterRevengePending (exileStep g) then
    ({ exileStep g with phase := GamePhase.hunter_revenge }, true)
  else
    ({ exileStep g with
        phase := GamePhase.night,
        day_count := (exileStep g).day_count + 1,
        votes := [],
        night_actions := NightActions.empty,
        witch_save_candidates := [],
        witch_used_save_this_night := false,
        witch_used_poison_this_night := false }, true)

/-- `_handle_vote_action`: record (or replace) the living issuer's vote on
a living target, then run `process_vote`. -/
def handleVoteAction (g : Game) (pl : Player) (args : List Nat) : Game × Bool :=
  match args with
  | [n] =>
      match getPlayerByNumber g n with
      | some t =>
          if t.status = PlayerStatus.alive then
            let votes' :=
              if g.votes.any (fun vq => vq.1 == pl.qq) then
                updateFirst (fun vq => vq.1 == pl.qq) (fun vq => (vq.1, n)) g.votes
              else g.votes ++ [(pl.qq, n)]
            ((processVote { g with votes := votes' }).1, true)
          else (g, false)
      | none => (g, false)
  | _ => (g, false)

/-- `_handle_white_wolf_action`: the white wolf and the named living
target both die with cause white-wolf; the room skips the rest of the day
and goes straight to the next NIGHT.  No win check, no lover cascade. -/
def handleWhiteWolfAction (g : Game) (pl : Player) (args : List Nat) : Game × Bool :=
  if pl.role ≠ some Role.white_wolf then (g, false)
  else
    match args with
    | [n] =>
        match getPlayerByNumber g n with
        | some t =>
            if t.status = PlayerStatus.alive then
              let pls := updateFirst (fun p => p.qq == pl.qq)
                (killUpdate DeathReason.white_wolf pl.qq) g.players
              let pls := updateFirst (fun p => p.number == n)
                (killUpdate DeathReason.white_wolf pl.qq) pls
              ({ g with
                  players := pls,
                  white_wolf_exploded := true,
                  phase := GamePhase.night,
                  day_count := g.day_count + 1,
                  votes := [],
                  night_actions := NightActions.empty }, true)
            else (g, false)
        | none => (g, false)
    | _ => (g, false)

/-- `_handle_hunter_action`: the hunter shoots a living target, who dies
with cause hunter-shoot and killer = hunter; the room advances to the
next NIGHT.  No win check, no lover cascade. -/
def handleHunterAction (g : Game) (pl : Player) (args : List Nat) : Game × Bool :=
  if pl.role ≠ some Role.hunter then (g, false)
  else
    match args with
    | [n] =>
        match getPlayerByNumber g n with
        | some t =>
            if t.status = PlayerStatus.alive then
              ({ g with
                  players := (updateFirst (fun p => p.number == n)
                    (killUpdate DeathReason.hunter_shoot pl.qq) g.players),
                  phase := GamePhase.night,
                  day_count := g.day_count + 1,
                  votes := [],
                  night_actions := NightActions.empty }, true)
            else (g, false)
        | none => (g, false)
    | _ => (g, false)

/-- `_handle_witch_save_action`: only the witch, only against a seat of
the presented candidate list; then the witch-save sub-phase resolves. -/
def handleWitchSaveAction (g : Game) (pl : Player) (args : List Nat) : Game × Bool :=
  if pl.role ≠ some Role.witch then (g, false)
  else
    match args with
    | [n] =>
        if (g.witch_save_candidates.map Prod.fst).contains n then
          let g1 := { g with night_actions := { g.night_actions with witch_save := some n } }
          ((processWitchSavePhase g1).1, true)
        else (g, false)
    | _ => (g, false)

/-- `_handle_witch_skip_action`: only the witch; record the skip and
resolve the witch-save sub-phase. -/
def handleWitchSkipAction (g : Game) (pl : Player) : Game × Bool :=
  if pl.role ≠ some Role.witch then (g, false)
  else
    let g1 := { g with night_actions := { g.night_actions with witch_skip := true } }
    ((processWitchSavePhase g1).1, true)

/-- Store a parsed single-target night action under the acting role's
action key (`_get_role_action_key`). -/
def setSingleNightAction (na : NightActions) (r : Role) (n : Nat) : NightActions :=
  match r with
  | .seer => { na with seer := some n }
  | .witch => { na with witch_poison := some n }
  | .wolf => { na with wolf_kill := some n }
  | .guard => { na with guard := some n }
  | .spiritualist => { na with spiritualist := some n }
  | .painter => { na with painter := some n }
  | _ => na

/-- Store a parsed two-target night action (magician swap / cupid choose). -/
def setPairNightAction (na : NightActions) (r : Role) (v : Nat × Nat) : NightActions :=
  match r with
  | .magician => { na with magician := some v }
  | .cupid => { na with cupid := some v }
  | _ => na

/-- Mark the issuer as having acted (`player["has_acted"] = True`). -/
def markActed (g : Game) (qq : String) : Game :=
  { g with players := (updateFirst (fun p => p.qq == qq)
      (fun p => { p with has_acted := true }) g.players) }

/-- `_handle_night_action`: validate role/verb/targets, record the action,
mark the issuer as acted, and re-check night completion (which can cascade
into the witch sub-phase or full night resolution). -/
def handleNightAction (g : Game) (pl : Player) (action : String) (args : List Nat) :
    Game × Bool :=
  if ¬ roleNightActionOpt pl.role then (g, false)
  else if action ≠ roleCommandStr pl.role ∧
          ¬(pl.role = some Role.witch ∧ (action = "save" ∨ action = "poison")) then
    (g, false)
  else if pl.role = some Role.witch then
    if action = "save" then (g, false)
    else if action = "poison" then
      if ¬(g.witch_status = WitchStatus.has_both ∨
            g.witch_status = WitchStatus.has_poison_only) then (g, false)
      else
        match args with
        | [n] =>
            match getPlayerByNumber g n with
            | some t =>
                if t.status = PlayerStatus.alive then
                  let g1 := markActed
                    { g with night_actions := (setSingleNightAction g.night_actions Role.witch n) }
                    pl.qq
                  ((processNightActions g1).1, true)
                else (g, false)
            | none => (g, false)
        | _ => (g, false)
    else (g, false)
  else
    match args with
    | [] => (g, false)
    | n1 :: rest =>
        if action = "swap" ∨ action = "choose" then
          match rest with
          | n2 :: _ =>
              match getPlayerByNumber g n1, getPlayerByNumber g n2 with
              | some t1, some t2 =>
                  if t1.status = PlayerStatus.alive ∧ t2.status = PlayerStatus.alive then
                    match pl.role with
                    | some r =>
                        let g1 := markActed
                          { g with night_actions := (setPairNightAction g.night_actions r (n1, n2)) }
                          pl.qq
                        ((processNightActions g1).1, true)
                    | none => (g, false)
                  else (g, false)
              | _, _ => (g, false)
          | [] => (g, false)
        else
          match rest with
          | [] =>
              match getPlayerByNumber g n1 with
              | some t =>
                  if t.status = PlayerStatus.alive then
                    match pl.role with
                    | some r =>
                        let g1 := markActed
                          { g with night_actions := (setSingleNightAction g.night_actions r n1) }
                          pl.qq
                        ((processNightActions g1).1, true)
                    | none => (g, false)
                  else (g, false)
              | none => (g, false)
          | _ => (g, false)

/-- `_handle_game_action` (the in-game verbs; `destroy` is special-cased
before this dispatch in the source and bypasses it): the issuer must be a
seated, LIVING player — a dead or exiled player is rejected before any
phase-specific handling — and then the verb is dispatched by phase. -/
def handleGameAction (g : Game) (uid : String) (action : String) (args : List Nat) :
    Game × Bool :=
  match g.players.find? (fun p => p.qq == uid) with
  | none => (g, false)
  | some pl =>
      if pl.status ≠ PlayerStatus.alive then (g, false)
      else
        match g.phase with
        | GamePhase.witch_save_phase =>
            if action = "save" then handleWitchSaveAction g pl args
            else if action = "skip" then handleWitchSkipAction g pl
            else (g, false)
        | GamePhase.night => handleNightAction g pl action args
        | GamePhase.day =>
            if action = "vote" then handleVoteAction g pl args
            else if action = "explode" then handleWhiteWolfAction g pl args
            else (g, false)
        | GamePhase.hunter_revenge =>
            if action = "shoot" then handleHunterAction g pl args
            else (g, false)
        | _ => (g, false)

/-- The fresh player dict built by `create_game`/`join_game`. -/
def newPlayer (qq name : String) (number : Nat) : Player :=
  { qq := qq, name := name, number := number, role := none, original_role := none,
    status := PlayerStatus.alive, death_reason := none, killer := none,
    has_acted := false, is_lover := false, lover_partner := none, camp := none }

/-- The default per-role counts of `create_game`, in the dict's key order. -/
def defaultRoleSettings : List (Role × Nat) :=
  [(Role.villager, 2), (Role.seer, 1), (Role.witch, 1), (Role.hunter, 1),
   (Role.wolf, 2), (Role.hidden_wolf, 0), (Role.guard, 0), (Role.magician, 0),
   (Role.double_faced, 0), (Role.spiritualist, 0), (Role.successor, 0),
   (Role.painter, 0), (Role.white_wolf, 0), (Role.cupid, 0)]

/-- `create_game`: a fresh room in SETUP with the host auto-seated at
seat 1 and the default settings (8 players, the default role mix). -/
def createGame (room_id host_qq group_id host_name : String) : Game :=
  { room_id := room_id, host := host_qq, group_id := group_id,
    players := [newPlayer host_qq host_name 1],
    settings_player_count := 8,
    settings_roles := defaultRoleSettings,
    phase := GamePhase.setup, day_count := 0,
    night_actions := NightActions.empty, votes := [], death_queue := [],
    lovers := [], guard_protected := none, last_guard_target := none,
    magician_swap := none, painter_disguised := none,
    hidden_wolf_awakened := false, white_wolf_exploded := false,
    witch_status := WitchStatus.has_both, witch_save_candidates := [],
    witch_used_save_this_night := false, witch_used_poison_this_night := false,
    winner := none, saved_players := [] }

/-- The seat added by `join_game` (next sequential number), applied to a
single room. -/
def Game.addPlayer (g : Game) (qq name : String) : Game :=
  { g with players := g.players ++ [newPlayer qq name (g.players.length + 1)] }

/-- The sum of the configured per-role counts. -/
def roleSum (l : List (Role × Nat)) : Nat :=
  (l.map (fun rc => rc.2)).sum

/-- `roles_to_assign` of `start_game`: each configured role replicated by
its count, in the settings dict's key order. -/
def rolesToAssign (g : Game) : List Role :=
  g.settings_roles.flatMap (fun rc => List.replicate rc.2 rc.1)

/-- The role-assignment loop of `start_game`: seat `i` (in `player_order`
order) receives the `i`-th element of the shuffled role list, as both
`role` and `original_role`. -/
def assignRoles : List Player → List Role → List Player
  | p :: ps, r :: rs => { p with role := some r, original_role := some r } :: assignRoles ps rs
  | ps, [] => ps
  | [], _ => []

/-- `start_game` on a room (room existence is checked by the manager
before this): fewer than 6 players, or a role-count sum different from
the seated player count, fails with no mutation; otherwise the shuffled
role list (a permutation of `rolesToAssign`, passed in as `shuffled`) is
dealt out one role per seat, the phase becomes NIGHT and the day counter
becomes 1. -/
def startGame (g : Game) (shuffled : List Role) : Option Game :=
  if g.players.length < 6 then none
  else if (rolesToAssign g).length ≠ g.players.length then none
  else some { g with
    players := assignRoles g.players shuffled,
    phase := GamePhase.night,
    day_count := 1 }

/-- The live room map of the `WerewolfGameManager` singleton. -/
structure Manager where
  games : List (String × Game)
deriving DecidableEq, Repr

/-- Whether a room entry is a live (non-ENDED) room seating the given
player — the per-room test of `_has_unfinished_game`. -/
def memLive (uid : String) (rg : String × Game) : Bool :=
  rg.2.players.any (fun p => p.qq == uid) && rg.2.phase != GamePhase.ended

/-- `_has_unfinished_game`: the player sits in some live room. -/
def hasUnfinishedGame (uid : String) (m : Manager) : Bool :=
  m.games.any (memLive uid)

/-- Python dict assignment `self.games[room_id] = game`: replace in place
if the key exists, else append. -/
def updateAssoc (l : List (String × Game)) (k : String) (g : Game) : List (String × Game) :=
  if l.any (fun rg => rg.1 == k) then
    updateFirst (fun rg => rg.1 == k) (fun rg => (rg.1, g)) l
  else l ++ [(k, g)]

/-- `join_game` on the manager: unknown room, full room, or an already
seated player fails; otherwise the player takes the next seat. -/
def Manager.joinGame (m : Manager) (rid qq name : String) : Manager × Bool :=
  match m.games.find? (fun rg => rg.1 == rid) with
  | none => (m, false)
  | some rg =>
      if rg.2.settings_player_count ≤ rg.2.players.length then (m, false)
      else if rg.2.players.any (fun p => p.qq == qq) then (m, false)
      else (⟨updateFirst (fun e => e.1 == rid)
              (fun e => (e.1, rg.2.addPlayer qq name)) m.games⟩, true)

/-- `_host_game`: a player with an unfinished game is rejected before any
room is created; otherwise a fresh room is created with the issuer as
host (the group-context lookup and the generated room id are inputs). -/
def hostCmd (m : Manager) (uid name gid rid : String) : Manager × Bool :=
  if hasUnfinishedGame uid m then (m, false)
  else (⟨updateAssoc m.games rid (createGame rid uid gid name)⟩, true)

/-- `_join_game`: a player with an unfinished game is rejected before the
manager-level join is attempted. -/
def joinCmd (m : Manager) (uid name rid : String) : Manager × Bool :=
  if hasUnfinishedGame uid m then (m, false)
  else m.joinGame rid uid name

/-- Modelled from the claim C4 wording (NOT from the source): the camp a
living player should be counted under — the explicitly flipped camp when
present, the lover pseudo-camp for lovers, the original role's camp
otherwise. -/
def claimCampOf (p : Player) : Option Camp :=
  if p.is_lover then some Camp.lover
  else
    match p.camp with
    | some c => some c
    | none => p.original_role.map roleCamp

/-- Modelled from the claim C4 wording: living players counted under
`claimCampOf`. -/
def claimCampAlive (g : Game) (c : Camp) : Nat :=
  (g.players.filter (fun p => p.status == PlayerStatus.alive && claimCampOf p == some c)).length

/-- Modelled from the claim C4 wording: the win rules applied to the
claim-side counts. -/
def claimWinner (g : Game) : Option String :=
  let v := claimCampAlive g Camp.village
  let w := claimCampAlive g Camp.wolf
  let t := claimCampAlive g Camp.third_party
  let l := claimCampAlive g Camp.lover
  if w = 0 then some "village"
  else if v + t ≤ w then some "wolf"
  else if 0 < l ∧ v + w + t = 0 then some "lover"
  else if 0 < t ∧ v + w + l = 0 then some "third_party"
  else none

/-- The amended C4 reading of the evaluator's per-player camp: the
original role's camp, with lovers in the lover pseudo-camp and the
flipped `camp` field ignored. -/
def amendedCampOf (p : Player) : Option Camp :=
  if p.is_lover then some Camp.lover else p.original_role.map roleCamp

/-- Living players counted under `amendedCampOf`. -/
def amendedCampAlive (g : Game) (c : Camp) : Nat :=
  (g.players.filter (fun p => p.status == PlayerStatus.alive && amendedCampOf p == some c)).length

/-- The amended C4 reading of the winner determination. -/
def amendedWinner (g : Game) : Option String :=
  let v := amendedCampAlive g Camp.village
  let w := amendedCampAlive g Camp.wolf
  let t := amendedCampAlive g Camp.third_party
  let l := amendedCampAlive g Camp.lover
  if w = 0 then some "village"
  else if v + t ≤ w then some "wolf"
  else if 0 < l ∧ v + w + t = 0 then some "lover"
  else if 0 < t ∧ v + w + l = 0 then some "third_party"
  else none

/-- Overwrite every player's flip field (used to state that the evaluator
is independent of it). -/
def setCamps (f : Player → Option Camp) (g : Game) : Game :=
  { g with players := g.players.map (fun p => { p with camp := f p }) }

/-- A living seat with the given role (used to build concrete rooms). -/
def mkP (qq name : String) (num : Nat) (r : Role) : Player :=
  { qq := qq, name := name, number := num, role := some r, original_role := some r,
    status := PlayerStatus.alive, death_reason := none, killer := none,
    has_acted := false, is_lover := false, lover_partner := none, camp := none }

/-- A started room over the given seats with empty transient state. -/
def mkGame (players : List Player) : Game :=
  { room_id := "R1", host := "p1", group_id := "G1", players := players,
    settings_player_count := 8, settings_roles := defaultRoleSettings,
    phase := GamePhase.night, day_count := 1,
    night_actions := NightActions.empty, votes := [], death_queue := [],
    lovers := [], guard_protected := none, last_guard_target := none,
    magician_swap := none, painter_disguised := none,
    hidden_wolf_awakened := false, white_wolf_exploded := false,
    witch_status := WitchStatus.has_both, witch_save_candidates := [],
    witch_used_save_this_night := false, witch_used_poison_this_night := false,
    winner := none, saved_players := [] }

/-- C1 counterexample room: six living players, the single wolf at seat 6,
every living player voting seat 6 during DAY. -/
def c1Room : Game :=
  { mkGame
      [mkP "p1" "A" 1 Role.villager, mkP "p2" "B" 2 Role.villager,
       mkP "p3" "C" 3 Role.villager, mkP "p4" "D" 4 Role.villager,
       mkP "p5" "E" 5 Role.villager, mkP "p6" "F" 6 Role.wolf] with
    phase := GamePhase.day,
    votes := [("p1", 6), ("p2", 6), ("p3", 6), ("p4", 6), ("p5", 6), ("p6", 6)] }

/-- C2 failing room: HUNTER_REVENGE with the hunter at seat 2 already
exiled by vote (not poison), a living wolf at seat 3. -/
def c2Room : Game :=
  { mkGame
      [mkP "p1" "A" 1 Role.villager,
       { mkP "p2" "B" 2 Role.hunter with
           status := PlayerStatus.exiled, death_reason := some DeathReason.vote },
       mkP "p3" "C" 3 Role.wolf] with
    phase := GamePhase.hunter_revenge }

/-- C3 counterexample room: lovers at seats 2 and 3, everyone voting to
exile seat 2 during DAY. -/
def c3Room : Game :=
  { mkGame
      [mkP "p1" "A" 1 Role.villager,
       { mkP "p2" "B" 2 Role.villager with is_lover := true, lover_partner := some "p3" },
       { mkP "p3" "C" 3 Role.villager with is_lover := true, lover_partner := some "p2" },
       mkP "p4" "D" 4 Role.wolf] with
    phase := GamePhase.day,
    lovers := ["p2", "p3"],
    votes := [("p1", 2), ("p2", 2), ("p3", 2), ("p4", 2)] }

/-- C4 counterexample room: a living double-faced player whose camp was
flipped to wolf by a wolf attack, plus one living wolf and one living
villager. -/
def c4Room : Game :=
  mkGame
    [{ mkP "p1" "A" 1 Role.double_faced with camp := some Camp.wolf },
     mkP "p2" "B" 2 Role.wolf, mkP "p3" "C" 3 Role.villager]

/-- C5 counterexample room: the guard's night action targets seat 3, the
wolf kill targets seat 3, the witch is alive with her save. -/
def c5Room : Game :=
  { mkGame
      [mkP "p1" "A" 1 Role.guard, mkP "p2" "B" 2 Role.wolf,
       mkP "p3" "C" 3 Role.villager, mkP "p4" "D" 4 Role.witch] with
    night_actions := { NightActions.empty with guard := some 3, wolf_kill := some 3 } }

/-- C9 failing room: night 2, the guard protected seat 3 on night 1
(`last_guard_target = 3`, stale `guard_protected = 3`), and tonight the
guard again submits seat 3 while the wolves target seat 3. -/
def c9Room : Game :=
  { mkGame
      [mkP "p1" "A" 1 Role.guard, mkP "p2" "B" 2 Role.wolf,
       mkP "p3" "C" 3 Role.villager] with
    day_count := 2,
    guard_protected := some 3,
    last_guard_target := some 3,
    night_actions := { NightActions.empty with guard := some 3, wolf_kill := some 3 } }

/-- A started room used to witness night resolution ending the game (no
wolves seated, so rule 1 fires). -/
def vRoom : Game :=
  mkGame [mkP "v1" "V1" 1 Role.villager, mkP "v2" "V2" 2 Role.villager]

/-- A started room with a living white wolf at seat 1. -/
def wwRoom : Game :=
  mkGame [mkP "w" "W" 1 Role.white_wolf, mkP "x" "X" 2 Role.villager]

/-- The exiled hunter of `c2Room`, as a standalone player value. -/
def hunterP : Player :=
  { mkP "p2" "B" 2 Role.hunter with
      status := PlayerStatus.exiled, death_reason := some DeathReason.vote }

/-- The witch seated in `c5Room`. -/
def witchP : Player := mkP "p4" "D" 4 Role.witch

/-- The room built by `create_game` for an arbitrary fixed host. -/
def c7Room : Game := createGame "R7" "h7" "G7" "Host"

/-- The default room of `c7Room` filled to its target count of 8 seats via
the `join_game` seat construction. -/
def c7FullRoom : Game :=
  ["q2", "q3", "q4", "q5", "q6", "q7", "q8"].foldl (fun g q => g.addPlayer q q) c7Room

/-- A DAY room whose vote tally is a 2-2 tie between seats 1 and 2. -/
def c8TieRoom : Game :=
  { mkGame
      [mkP "p1" "A" 1 Role.villager, mkP "p2" "B" 2 Role.villager,
       mkP "p3" "C" 3 Role.villager, mkP "p4" "D" 4 Role.wolf] with
    phase := GamePhase.day,
    votes := [("p1", 2), ("p2", 1), ("p3", 2), ("p4", 1)] }

/-- The lover at seat 2 used for the C3 witness. -/
def c3v : Player :=
  { mkP "p2" "B" 2 Role.villager with is_lover := true, lover_partner := some "p3" }

/-- The lover at seat 3 used for the C3 witness. -/
def c3p : Player :=
  { mkP "p3" "C" 3 Role.villager with is_lover := true, lover_partner := some "p2" }

/-- A wolf-kill death-queue entry against the seat-2 lover. -/
def c3e : DeathEntry := ⟨"p2", DeathReason.wolf_kill, "wolf"⟩

/-- A SETUP room with six seats and a role mix summing to exactly 6. -/
def c6Room : Game :=
  { mkGame
      [newPlayer "p1" "A" 1, newPlayer "p2" "B" 2, newPlayer "p3" "C" 3,
       newPlayer "p4" "D" 4, newPlayer "p5" "E" 5, newPlayer "p6" "F" 6] with
    phase := GamePhase.setup, day_count := 0,
    settings_roles := [(Role.villager, 4), (Role.wolf, 2)] }

/-- A manager holding one live room (the DAY room `c1Room`). -/
def m10 : Manager := ⟨[("R1", c1Room)]⟩

/-- C1 counterexample: in `c1Room` the unanimous vote exiles the last
wolf, vote resolution completes, a win rule holds over the living players
(the evaluator, had it been invoked, would declare village the winner) —
yet the room's phase becomes NIGHT, no winner is recorded and the room is
not archived.  This refutes the claim that the win-condition evaluator is
invoked after vote-resolution exile. -/
theorem c1_counterexample :
    (processVote c1Room).2 = true ∧
    (processVote c1Room).1.winner = none ∧
    (processVote c1Room).1.phase = GamePhase.night ∧
    (checkGameEnd (processVote c1Room).1).2 = true ∧
    (checkGameEnd (processVote c1Room).1).1.winner = some "village" := by
  decide

/-- C2 evaluation at the failing input: in `c2Room` (HUNTER_REVENGE, the
hunter at seat 2 exiled by vote), the hunter's own `shoot 3` is rejected
with no state mutation — the actor-must-be-alive gate of
`_handle_game_action` fires before the HUNTER_REVENGE dispatch, even
though the engine just prompted this hunter to shoot.  Other verbs are
rejected as the claim says: a living player's `vote`, and `shoot` by a
living non-hunter, are both rejected without mutation. -/
theorem c2_code_eval :
    handleGameAction c2Room "p2" "shoot" [3] = (c2Room, false) ∧
    handleGameAction c2Room "p1" "vote" [3] = (c2Room, false) ∧
    handleGameAction c2Room "p1" "shoot" [3] = (c2Room, false) := by
  decide

/-- C3 counterexample: in `c3Room` the unanimous vote exiles the seat-2
lover, yet the surviving partner at seat 3 stays alive — vote exile does
not trigger the lover-suicide cascade.  This refutes the claim that a
lover death by ANY cause kills the partner. -/
theorem c3_counterexample :
    (c3Room.players.find? (fun p => p.qq == "p2")).map Player.is_lover = some true ∧
    ((processVote c3Room).1.players.find? (fun p => p.qq == "p2")).map Player.status
      = some PlayerStatus.exiled ∧
    ((processVote c3Room).1.players.find? (fun p => p.qq == "p2")).map Player.death_reason
      = some (some DeathReason.vote) ∧
    ((processVote c3Room).1.players.find? (fun p => p.qq == "p3")).map Player.status
      = some PlayerStatus.alive := by
  decide

/-- C4 counterexample: in `c4Room` a living double-faced player has been
flipped to the wolf camp.  Counting the flip (as the claim states) makes
the wolves win (2 wolves against 1 villager), but the code's evaluator
ignores the flip field, still counts the player as third-party, and
declares no winner.  This refutes the claim that a flipped double-faced
player is counted under the flipped camp. -/
theorem c4_counterexample :
    (c4Room.players.find? (fun p => p.qq == "p1")).map Player.camp
      = some (some Camp.wolf) ∧
    claimWinner c4Room = some "wolf" ∧
    (checkGameEnd c4Room).2 = false ∧
    (checkGameEnd c4Room).1.winner = none := by
  decide

/-- C5 counterexample: in `c5Room` the guard's action for this night
targets seat 3 (and the guard step would indeed set `guard_protected` to
seat 3), yet the candidate list computed for the witch still presents
seat 3 — guard protection is NOT applied to the provisional death list.
This refutes the claim that a guard-protected wolf-kill target does not
appear in the candidate list. -/
theorem c5_counterexample :
    c5Room.night_actions.guard = some 3 ∧
    (processGuardAction c5Room).guard_protected = some 3 ∧
    (processNightActions c5Room).1.phase = GamePhase.witch_save_phase ∧
    (processNightActions c5Room).1.witch_save_candidates = [(3, "C")] := by
  decide

/-- C7 counterexample: the default role mix of `create_game` sums to 7,
not 8, so it differs from the default target player count and a fully
seated default room cannot satisfy the start precondition.  This refutes
the claim that the default per-role counts sum to 8. -/
theorem c7_counterexample :
    roleSum c7Room.settings_roles = 7 ∧
    c7Room.settings_player_count = 8 ∧
    roleSum c7Room.settings_roles ≠ c7Room.settings_player_count := by
  decide

/-- C9 evaluation at the failing input: in `c9Room` (night 2, guard
protected seat 3 on night 1, guard submits seat 3 again, wolves target
seat 3).  The repeated guard action is ignored and `last_guard_target`
stays 3 — but because `guard_protected` is never cleared between nights,
the stale value still shields seat 3: the wolf kill queues no death and
seat 3 survives the night.  The claim (and the guard's own catalog
description, which forbids protecting the same seat on consecutive
nights) says seat 3 gains no protection for night 2 and should die. -/
theorem c9_code_eval :
    c9Room.last_guard_target = some 3 ∧
    c9Room.night_actions.guard = some 3 ∧
    c9Room.night_actions.wolf_kill = some 3 ∧
    (processNightActions c9Room).1.last_guard_target = some 3 ∧
    (processNightActions c9Room).1.guard_protected = some 3 ∧
    (processNightActions c9Room).1.phase = GamePhase.day ∧
    ((processNightActions c9Room).1.players.find? (fun p => p.qq == "p3")).map Player.status
      = some PlayerStatus.alive ∧
    (processNightActions c9Room).1.death_queue = [] := by
  decide

theorem checkGameEnd_phase_of_ended (g : Game) (h : (checkGameEnd g).2 = true) :
    (checkGameEnd g).1.phase = GamePhase.ended := by
  unfold checkGameEnd at h ⊢
  revert h
  cases endWinner g
  · intro h
    exact Bool.noConfusion h
  · intro _
    rfl

theorem exileStep_winner (g : Game) : (exileStep g).winner = g.winner := by
  unfold exileStep
  split
  · rfl
  · split
    · rfl
    · cases hc : voteCandidates g with
      | nil => rfl
      | cons a t =>
          cases t with
          | nil => rfl
          | cons b t2 => rfl

theorem processVote_shape (g : Game) :
    (processVote g).1.winner = g.winner ∧
    ((processVote g).2 = true → (processVote g).1.phase ≠ GamePhase.ended) := by
  unfold processVote
  split
  · exact ⟨rfl, fun h => nomatch h⟩
  · split
    · exact ⟨exileStep_winner g, fun _ heq => nomatch heq⟩
    · exact ⟨exileStep_winner g, fun _ heq => nomatch heq⟩

theorem handleHunterAction_shape (g : Game) (pl : Player) (args : List Nat) :
    (handleHunterAction g pl args).1.winner = g.winner ∧
    ((handleHunterAction g pl args).2 = true →
      (handleHunterAction g pl args).1.phase = GamePhase.night) := by
  unfold handleHunterAction
  repeat' split
  all_goals exact ⟨rfl, fun h => by first | rfl | exact nomatch h⟩

theorem handleWhiteWolfAction_shape (g : Game) (pl : Player) (args : List Nat) :
    (handleWhiteWolfAction g pl args).1.winner = g.winner ∧
    ((handleWhiteWolfAction g pl args).2 = true →
      (handleWhiteWolfAction g pl args).1.phase = GamePhase.night) := by
  unfold handleWhiteWolfAction
  repeat' split
  all_goals exact ⟨rfl, fun h => by first | rfl | exact nomatch h⟩

/-- C1 amended: the win-condition evaluator is invoked only by night
resolution.  Vote resolution, a hunter shot and a white-wolf detonation
never record a winner and never move the room to ENDED (they advance to
HUNTER_REVENGE or NIGHT), even when a win rule holds at that point; night
resolution does consult the evaluator and, when a win rule holds after
death execution, the room ends with the winner recorded. -/
theorem c1_amended : ∀ (g : Game) (pl : Player) (args : List Nat),
    ((processVote g).1.winner = g.winner ∧
      ((processVote g).2 = true → (processVote g).1.phase ≠ GamePhase.ended)) ∧
    ((handleHunterAction g pl args).1.winner = g.winner ∧
      ((handleHunterAction g pl args).2 = true →
        (handleHunterAction g pl args).1.phase = GamePhase.night)) ∧
    ((handleWhiteWolfAction g pl args).1.winner = g.winner ∧
      ((handleWhiteWolfAction g pl args).2 = true →
        (handleWhiteWolfAction g pl args).1.phase = GamePhase.night)) ∧
    ((checkGameEnd (nightSteps g)).2 = true →
      processAllNightActions g = ((checkGameEnd (nightSteps g)).1, true) ∧
      (checkGameEnd (nightSteps g)).1.phase = GamePhase.ended) := by
  intro g pl args
  refine ⟨processVote_shape g, handleHunterAction_shape g pl args,
    handleWhiteWolfAction_shape g pl args, fun h => ⟨?_, checkGameEnd_phase_of_ended _ h⟩⟩
  simp [processAllNightActions, h]

/-- C1 witness: the amended theorem applied at concrete rooms — the
resolved vote of `c1Room` does not end the room, a hunter shot and a
detonation advance to NIGHT, and night resolution of the wolfless room
`vRoom` returns the evaluator's ended state. -/
theorem c1_amended_witness :
    (processVote c1Room).1.phase ≠ GamePhase.ended ∧
    (handleHunterAction c2Room hunterP [3]).1.phase = GamePhase.night ∧
    (handleWhiteWolfAction wwRoom (mkP "w" "W" 1 Role.white_wolf) [2]).1.phase
      = GamePhase.night ∧
    processAllNightActions vRoom = ((checkGameEnd (nightSteps vRoom)).1, true) :=
  ⟨(c1_amended c1Room hunterP []).1.2 (by decide),
   (c1_amended c2Room hunterP [3]).2.1.2 (by decide),
   (c1_amended wwRoom (mkP "w" "W" 1 Role.white_wolf) [2]).2.2.1.2 (by decide),
   ((c1_amended vRoom hunterP []).2.2.2 (by decide)).1⟩

theorem campAlive_eq_amended (g : Game) (c : Camp) (hc : c ≠ Camp.lover) :
    campAlive g c = amendedCampAlive g c := by
  unfold campAlive amendedCampAlive amendedCampOf
  rw [List.countP_eq_length_filter]
  congr 1
  apply List.filter_congr
  intro p _
  rcases p.original_role with _ | r
  · cases c <;>
      first
        | exact absurd rfl hc
        | (cases p.is_lover <;> cases p.status <;> rfl)
  · cases c <;>
      first
        | exact absurd rfl hc
        | (cases r <;> cases p.is_lover <;> cases p.status <;> rfl)

theorem loversAlive_eq_amended (g : Game) :
    loversAlive g = amendedCampAlive g Camp.lover := by
  unfold loversAlive amendedCampAlive amendedCampOf
  rw [List.countP_eq_length_filter]
  congr 1
  apply List.filter_congr
  intro p _
  rcases p.original_role with _ | r
  · cases p.is_lover <;> cases p.status <;> rfl
  · cases r <;> cases p.is_lover <;> cases p.status <;> rfl

theorem endWinner_eq_amended (g : Game) : endWinner g = amendedWinner g := by
  unfold endWinner amendedWinner
  rw [campAlive_eq_amended g Camp.village (by decide),
      campAlive_eq_amended g Camp.wolf (by decide),
      campAlive_eq_amended g Camp.third_party (by decide),
      loversAlive_eq_amended g]

theorem campAlive_setCamps (g : Game) (f : Player → Option Camp) (c : Camp) :
    campAlive (setCamps f g) c = campAlive g c := by
  unfold campAlive setCamps
  rw [List.countP_map]
  rfl

theorem loversAlive_setCamps (g : Game) (f : Player → Option Camp) :
    loversAlive (setCamps f g) = loversAlive g := by
  unfold loversAlive setCamps
  rw [List.countP_map]
  rfl

theorem endWinner_setCamps (g : Game) (f : Player → Option Camp) :
    endWinner (setCamps f g) = endWinner g := by
  unfold endWinner
  rw [campAlive_setCamps, campAlive_setCamps, campAlive_setCamps, loversAlive_setCamps]

/-- C4 amended: the evaluator counts every living player under the camp
of their ORIGINAL role, with living lovers in the lover pseudo-camp; the
explicit double-faced camp flip is written to a separate field that the
evaluator never reads, so its outcome is entirely independent of that
field and a flipped double-faced player is still counted as third-party. -/
theorem c4_amended : ∀ (g : Game) (f : Player → Option Camp),
    (checkGameEnd (setCamps f g)).2 = (checkGameEnd g).2 ∧
    (checkGameEnd (setCamps f g)).1.winner = (checkGameEnd g).1.winner ∧
    (checkGameEnd g).2 = (amendedWinner g).isSome ∧
    (checkGameEnd g).1.winner =
      (match amendedWinner g with | some s => some s | none => g.winner) := by
  intro g f
  unfold checkGameEnd
  rw [endWinner_setCamps g f, ← endWinner_eq_amended g]
  cases h : endWinner g <;> simp [h, setCamps]

/-- C5 amended: the provisional death list presented to the witch is the
wolf-kill target with only target-existence, target-aliveness and
double-faced immunity applied; the computation never reads the guard
state, so a guard-protected target still appears, while a `save` naming a
seat outside the presented list is rejected without mutation. -/
theorem c5_amended : ∀ (g : Game) (x : Option Nat) (pl : Player) (n : Nat),
    calculatePotentialDeaths { g with guard_protected := x } = calculatePotentialDeaths g ∧
    (∀ m nm, (m, nm) ∈ calculatePotentialDeaths g →
      ∃ t, getPlayerByNumber g m = some t ∧ t.status = PlayerStatus.alive ∧
        t.role ≠ some Role.double_faced) ∧
    (pl.role = some Role.witch →
      (g.witch_save_candidates.map Prod.fst).contains n = false →
      handleWitchSaveAction g pl [n] = (g, false)) := by
  intro g x pl n
  refine ⟨rfl, ?_, fun hw hn => ?_⟩
  · intro m nm hmem
    unfold calculatePotentialDeaths at hmem
    split at hmem
    · split at hmem
      · split at hmem
        · rename_i hcond
          simp only [List.mem_singleton, Prod.mk.injEq] at hmem
          obtain ⟨hm, -⟩ := hmem
          subst hm
          exact ⟨_, by assumption, hcond.1, hcond.2⟩
        · exact nomatch hmem
      · exact nomatch hmem
    · exact nomatch hmem
  · simp [handleWitchSaveAction, hw, hn]
    intro s hmem2
    have h1 : n ∈ g.witch_save_candidates.map Prod.fst :=
      List.mem_map_of_mem Prod.fst hmem2
    have h2 : ¬ n ∈ g.witch_save_candidates.map Prod.fst := by
      simpa using hn
    exact h2 h1

/-- C5 witness: the amended theorem applied at `c5Room` — the candidate
computation ignores an arbitrary guard assignment, and the witch's `save
5` (a seat outside the presented list) is rejected unchanged. -/
theorem c5_amended_witness :
    calculatePotentialDeaths { c5Room with guard_protected := some 3 }
      = calculatePotentialDeaths c5Room ∧
    handleWitchSaveAction c5Room witchP [5] = (c5Room, false) :=
  ⟨(c5_amended c5Room (some 3) witchP 5).1,
   (c5_amended c5Room (some 3) witchP 5).2.2 (by decide) (by decide)⟩

/-- C7 amended: `create_game` auto-seats the host at seat 1 and applies
the default settings of 8 target players — but the default role mix sums
to 7, not 8, so a fully seated default room (8 seats) always fails the
start precondition that the role-count sum equal the seated player
count. -/
theorem c7_amended : ∀ rid hq gid hn : String,
    (createGame rid hq gid hn).players = [newPlayer hq hn 1] ∧
    (createGame rid hq gid hn).settings_player_count = 8 ∧
    roleSum (createGame rid hq gid hn).settings_roles = 7 ∧
    c7FullRoom.players.length = 8 ∧
    ∀ shuffled : List Role, startGame c7FullRoom shuffled = none := by
  intro rid hq gid hn
  exact ⟨rfl, rfl, rfl, rfl, fun sh => rfl⟩

theorem mem_qq_unique {l : List Player} (h : l.Pairwise (fun a b => a.qq ≠ b.qq))
    {a b : Player} (ha : a ∈ l) (hb : b ∈ l) (hq : a.qq = b.qq) : a = b := by
  induction l with
  | nil => cases ha
  | cons x t ih =>
      rcases List.mem_cons.mp ha with rfl | ha'
      · rcases List.mem_cons.mp hb with rfl | hb'
        · rfl
        · exact absurd hq ((List.pairwise_cons.mp h).1 b hb')
      · rcases List.mem_cons.mp hb with rfl | hb'
        · exact absurd hq.symm ((List.pairwise_cons.mp h).1 a ha')
        · exact ih (List.pairwise_cons.mp h).2 ha' hb'

theorem find_qq {l : List Player} (h : l.Pairwise (fun a b => a.qq ≠ b.qq))
    {v : Player} (hv : v ∈ l) {k : String} (hk : v.qq = k) :
    l.find? (fun p => p.qq == k) = some v := by
  induction l with
  | nil => cases hv
  | cons x t ih =>
      rcases List.mem_cons.mp hv with rfl | hv'
      · rw [List.find?_cons_of_pos]
        simp [hk]
      · have hx : (x.qq == k) = false := by
          simp only [beq_eq_false_iff_ne, ne_eq]
          intro hkk
          exact ((List.pairwise_cons.mp h).1 v hv') (hkk.trans hk.symm)
        rw [List.find?_cons_of_neg _ (by simp [hx])]
        exact ih (List.pairwise_cons.mp h).2 hv'

theorem ifKill_qq (k : String) (re : DeathReason) (ki : String) (p : Player) :
    (if p.qq == k then killUpdate re ki p else p).qq = p.qq := by
  split <;> rfl

theorem pairwise_killByQq {l : List Player} (h : l.Pairwise (fun a b => a.qq ≠ b.qq))
    (k : String) (re : DeathReason) (ki : String) :
    (killByQq k re ki l).Pairwise (fun a b => a.qq ≠ b.qq) := by
  unfold killByQq
  rw [List.pairwise_map]
  refine h.imp ?_
  intro a b hab
  simp only [ifKill_qq]
  exact hab

theorem applyDeath_cascade {l : List Player} {e : DeathEntry} {v p : Player}
    (hpw : l.Pairwise (fun a b => a.qq ≠ b.qq))
    (hv : v ∈ l) (hp : p ∈ l)
    (hqv : v.qq = e.player_qq)
    (hal : v.status = PlayerStatus.alive)
    (hlov : v.is_lover = true)
    (hpart : v.lover_partner = some p.qq)
    (hpal : p.status = PlayerStatus.alive)
    (hne : p.qq ≠ v.qq) :
    ∀ r ∈ applyDeath l e,
      (r.qq = v.qq → r.status = PlayerStatus.dead ∧ r.death_reason = some e.reason ∧
        r.killer = some e.killer) ∧
      (r.qq = p.qq → r.status = PlayerStatus.dead ∧
        r.death_reason = some DeathReason.lover_suicide ∧ r.killer = some v.qq) := by
  have hfind : l.find? (fun q => q.qq == e.player_qq) = some v := find_qq hpw hv hqv
  have hpqk : (p.qq == e.player_qq) = false := by
    simp only [beq_eq_false_iff_ne, ne_eq]
    intro hh
    exact hne (hh.trans hqv.symm)
  have hf1p : (fun q => if q.qq == e.player_qq then killUpdate e.reason e.killer q else q) p
      = p := by
    show (if p.qq == e.player_qq then killUpdate e.reason e.killer p else p) = p
    rw [hpqk]
    rfl
  have hpmem1 : p ∈ killByQq e.player_qq e.reason e.killer l := by
    unfold killByQq
    exact hf1p ▸ List.mem_map_of_mem _ hp
  have hpw1 := pairwise_killByQq hpw e.player_qq e.reason e.killer
  have hfind2 :
      (killByQq e.player_qq e.reason e.killer l).find? (fun q => q.qq == p.qq) = some p :=
    find_qq hpw1 hpmem1 rfl
  have happly : applyDeath l e =
      killByQq p.qq DeathReason.lover_suicide v.qq
        (killByQq e.player_qq e.reason e.killer l) := by
    unfold applyDeath
    simp only [hfind, hal, hlov, hpart, hfind2, hpal, if_true]
  intro r hr
  rw [happly] at hr
  unfold killByQq at hr
  rw [List.mem_map] at hr
  obtain ⟨y, hy, hry⟩ := hr
  rw [List.mem_map] at hy
  obtain ⟨x, hx, hyx⟩ := hy
  have hvqk : (v.qq == e.player_qq) = true := by simp [hqv]
  have hvqp : (v.qq == p.qq) = false := by
    simp only [beq_eq_false_iff_ne, ne_eq]
    exact fun hh => hne hh.symm
  have hppq : (p.qq == p.qq) = true := by simp
  have hrx : r.qq = x.qq := by
    rw [← hry, ← hyx, ifKill_qq, ifKill_qq]
  constructor
  · intro hrv
    have hxv : x = v := mem_qq_unique hpw hx hv (hrx.symm.trans hrv)
    subst hxv
    rw [← hry, ← hyx, hvqk]
    simp only [if_true, killUpdate, ifKill_qq]
    rw [if_neg (by simp [hvqp])]
    exact ⟨rfl, rfl, rfl⟩
  · intro hrp
    have hxp : x = p := mem_qq_unique hpw hx hp (hrx.symm.trans hrp)
    subst hxp
    rw [← hry, ← hyx, hpqk]
    simp only [Bool.false_eq_true, if_false]
    rw [if_pos (by simp)]
    exact ⟨rfl, rfl, rfl⟩

theorem mem_updateFirst {q : α → Bool} {f : α → α} {l : List α} {r : α}
    (h : r ∈ updateFirst q f l) : r ∈ l ∨ ∃ x, x ∈ l ∧ q x = true ∧ r = f x := by
  induction l with
  | nil => exact Or.inl h
  | cons x t ih =>
      rw [updateFirst] at h
      by_cases hq : q x
      · rw [if_pos hq] at h
        rcases List.mem_cons.mp h with rfl | h'
        · exact Or.inr ⟨x, List.mem_cons_self x t, hq, rfl⟩
        · exact Or.inl (List.mem_cons_of_mem x h')
      · rw [if_neg hq] at h
        rcases List.mem_cons.mp h with rfl | h'
        · exact Or.inl (List.mem_cons_self r t)
        · rcases ih h' with h'' | ⟨y, hy, hqy, hry⟩
          · exact Or.inl (List.mem_cons_of_mem x h'')
          · exact Or.inr ⟨y, List.mem_cons_of_mem x hy, hqy, hry⟩

theorem exileUpdate_status (p : Player) : (exileUpdate p).status = PlayerStatus.exiled := by
  unfold exileUpdate
  split <;> rfl

theorem exileUpdate_reason (p : Player) :
    (exileUpdate p).death_reason = some DeathReason.vote := by
  unfold exileUpdate
  split <;> rfl

theorem mem_exileStep {g : Game} {r : Player} (hr : r ∈ (exileStep g).players) :
    r ∈ g.players ∨ ∃ x, x ∈ g.players ∧ r = exileUpdate x := by
  unfold exileStep at hr
  split at hr
  · exact Or.inl hr
  · split at hr
    · exact Or.inl hr
    · split at hr
      · rcases mem_updateFirst hr with h | ⟨x, hx, _, hrx⟩
        · exact Or.inl h
        · exact Or.inr ⟨x, hx, hrx⟩
      · exact Or.inl hr

theorem processVote_no_new_lover_suicide {g : Game} {r : Player}
    (hr : r ∈ (processVote g).1.players)
    (hreason : r.death_reason = some DeathReason.lover_suicide) : r ∈ g.players := by
  have hpl : (processVote g).1.players = g.players ∨
      (processVote g).1.players = (exileStep g).players := by
    unfold processVote
    split
    · exact Or.inl rfl
    · split
      · exact Or.inr rfl
      · exact Or.inr rfl
  rcases hpl with h | h
  · rw [h] at hr
    exact hr
  · rw [h] at hr
    rcases mem_exileStep hr with h' | ⟨x, hx, hrx⟩
    · exact h'
    · rw [hrx, exileUpdate_reason] at hreason
      cases hreason

theorem handleHunterAction_no_new_lover_suicide {g : Game} {pl : Player} {args : List Nat}
    {r : Player} (hr : r ∈ (handleHunterAction g pl args).1.players)
    (hreason : r.death_reason = some DeathReason.lover_suicide) : r ∈ g.players := by
  have hpl : (handleHunterAction g pl args).1.players = g.players ∨
      (handleHunterAction g pl args).1.players
        = updateFirst (fun p => p.number == args.headD 0)
            (killUpdate DeathReason.hunter_shoot pl.qq) g.players := by
    unfold handleHunterAction
    repeat' split
    all_goals first | exact Or.inl rfl | exact Or.inr rfl
  rcases hpl with h | h
  · rw [h] at hr
    exact hr
  · rw [h] at hr
    rcases mem_updateFirst hr with h' | ⟨x, hx, _, hrx⟩
    · exact h'
    · rw [hrx] at hreason
      cases hreason

theorem handleWhiteWolfAction_no_new_lover_suicide {g : Game} {pl : Player} {args : List Nat}
    {r : Player} (hr : r ∈ (handleWhiteWolfAction g pl args).1.players)
    (hreason : r.death_reason = some DeathReason.lover_suicide) : r ∈ g.players := by
  have hpl : (handleWhiteWolfAction g pl args).1.players = g.players ∨
      (handleWhiteWolfAction g pl args).1.players
        = updateFirst (fun p => p.number == args.headD 0)
            (killUpdate DeathReason.white_wolf pl.qq)
            (updateFirst (fun p => p.qq == pl.qq)
              (killUpdate DeathReason.white_wolf pl.qq) g.players) := by
    unfold handleWhiteWolfAction
    repeat' split
    all_goals first | exact Or.inl rfl | exact Or.inr rfl
  rcases hpl with h | h
  · rw [h] at hr
    exact hr
  · rw [h] at hr
    rcases mem_updateFirst hr with h' | ⟨x, hx, _, hrx⟩
    · rcases mem_updateFirst h' with h'' | ⟨y, hy, _, hry⟩
      · exact h''
      · rw [hry] at hreason
        cases hreason
    · rw [hrx] at hreason
      cases hreason

/-- C3 amended: the lover-suicide cascade is applied exactly during night
death-queue execution.  When a death-queue entry kills a living lover,
the same execution step immediately and unconditionally kills the living
partner with cause lover-suicide and killer = the dead lover (no
protection is consulted).  Vote exile, a hunter shot and a white-wolf
detonation never produce a lover-suicide death: every player of the
resulting room carrying that cause was already carrying it before. -/
theorem c3_amended : ∀ (l : List Player) (e : DeathEntry) (v p : Player) (g : Game)
    (pl : Player) (args : List Nat),
    (l.Pairwise (fun a b => a.qq ≠ b.qq) → v ∈ l → p ∈ l → v.qq = e.player_qq →
      v.status = PlayerStatus.alive → v.is_lover = true → v.lover_partner = some p.qq →
      p.status = PlayerStatus.alive → p.qq ≠ v.qq →
      ∀ r ∈ applyDeath l e,
        (r.qq = v.qq → r.status = PlayerStatus.dead ∧ r.death_reason = some e.reason ∧
          r.killer = some e.killer) ∧
        (r.qq = p.qq → r.status = PlayerStatus.dead ∧
          r.death_reason = some DeathReason.lover_suicide ∧ r.killer = some v.qq)) ∧
    (∀ r ∈ (processVote g).1.players,
      r.death_reason = some DeathReason.lover_suicide → r ∈ g.players) ∧
    (∀ r ∈ (handleHunterAction g pl args).1.players,
      r.death_reason = some DeathReason.lover_suicide → r ∈ g.players) ∧
    (∀ r ∈ (handleWhiteWolfAction g pl args).1.players,
      r.death_reason = some DeathReason.lover_suicide → r ∈ g.players) := by
  intro l e v p g pl args
  exact ⟨fun h1 h2 h3 h4 h5 h6 h7 h8 h9 =>
      applyDeath_cascade h1 h2 h3 h4 h5 h6 h7 h8 h9,
    fun r hr hreason => processVote_no_new_lover_suicide hr hreason,
    fun r hr hreason => handleHunterAction_no_new_lover_suicide hr hreason,
    fun r hr hreason => handleWhiteWolfAction_no_new_lover_suicide hr hreason⟩

/-- C3 witness: the cascade conjunct applied at the concrete lover pair of
`c3Room` — executing a wolf-kill entry against the seat-2 lover leaves the
seat-3 partner dead with cause lover-suicide and killer = the seat-2
lover. -/
theorem c3_amended_witness :
    (killUpdate DeathReason.lover_suicide "p2" c3p).status = PlayerStatus.dead ∧
    (killUpdate DeathReason.lover_suicide "p2" c3p).death_reason
      = some DeathReason.lover_suicide ∧
    (killUpdate DeathReason.lover_suicide "p2" c3p).killer = some "p2" :=
  ((c3_amended [c3v, c3p] c3e c3v c3p c1Room c3v []).1 (by decide) (by decide) (by decide)
      (by decide) (by decide) (by decide) (by decide) (by decide) (by decide)
      (killUpdate DeathReason.lover_suicide "p2" c3p) (by decide)).2 (by decide)

theorem length_flatMap_replicate (l : List (Role × Nat)) :
    (l.flatMap (fun rc => List.replicate rc.2 rc.1)).length
      = (l.map (fun rc => rc.2)).sum := by
  induction l with
  | nil => rfl
  | cons a t ih => simp [ih]

theorem length_rolesToAssign (g : Game) :
    (rolesToAssign g).length = roleSum g.settings_roles :=
  length_flatMap_replicate g.settings_roles

theorem assignRoles_map_role : ∀ (ps : List Player) (rs : List Role),
    rs.length = ps.length → (assignRoles ps rs).map Player.role = rs.map some := by
  intro ps
  induction ps with
  | nil =>
      intro rs h
      rw [List.length_nil, List.length_eq_zero] at h
      subst h
      rfl
  | cons p pt ih =>
      intro rs h
      cases rs with
      | nil => exact absurd h (by simp)
      | cons r rt =>
          simp only [assignRoles, List.map_cons]
          rw [ih rt (by simpa using h)]

theorem assignRoles_map_orig : ∀ (ps : List Player) (rs : List Role),
    rs.length = ps.length →
      (assignRoles ps rs).map Player.original_role = rs.map some := by
  intro ps
  induction ps with
  | nil =>
      intro rs h
      rw [List.length_nil, List.length_eq_zero] at h
      subst h
      rfl
  | cons p pt ih =>
      intro rs h
      cases rs with
      | nil => exact absurd h (by simp)
      | cons r rt =>
          simp only [assignRoles, List.map_cons]
          rw [ih rt (by simpa using h)]

theorem assignRoles_map_qq : ∀ (ps : List Player) (rs : List Role),
    (assignRoles ps rs).map Player.qq = ps.map Player.qq := by
  intro ps
  induction ps with
  | nil => intro rs; cases rs <;> rfl
  | cons p pt ih =>
      intro rs
      cases rs with
      | nil => rfl
      | cons r rt => simp only [assignRoles, List.map_cons, ih rt]

theorem assignRoles_map_number : ∀ (ps : List Player) (rs : List Role),
    (assignRoles ps rs).map Player.number = ps.map Player.number := by
  intro ps
  induction ps with
  | nil => intro rs; cases rs <;> rfl
  | cons p pt ih =>
      intro rs
      cases rs with
      | nil => rfl
      | cons r rt => simp only [assignRoles, List.map_cons, ih rt]

/-- C6 confirmed: `start_game` fails without mutation when fewer than 6
players are seated or when the configured role counts do not sum to the
seated player count; on success (the shuffled list being a permutation of
the configured role multiset) every seat receives exactly one role as
both `role` and `original_role`, seat identities and numbers are
untouched, the assigned roles are exactly the configured role multiset (a
bijection, not sampling with replacement), the phase becomes NIGHT and
the day counter becomes 1. -/
theorem c6_start_game : ∀ (g : Game) (shuffled : List Role),
    shuffled.Perm (rolesToAssign g) →
    ((g.players.length < 6 → startGame g shuffled = none) ∧
     (roleSum g.settings_roles ≠ g.players.length → startGame g shuffled = none) ∧
     (6 ≤ g.players.length → roleSum g.settings_roles = g.players.length →
       ∃ g', startGame g shuffled = some g' ∧
         g'.phase = GamePhase.night ∧ g'.day_count = 1 ∧
         g'.players.map Player.role = shuffled.map some ∧
         g'.players.map Player.original_role = shuffled.map some ∧
         g'.players.map Player.qq = g.players.map Player.qq ∧
         g'.players.map Player.number = g.players.map Player.number ∧
         (g'.players.map Player.role).Perm ((rolesToAssign g).map some))) := by
  intro g sh hperm
  have hlen : (rolesToAssign g).length = roleSum g.settings_roles := length_rolesToAssign g
  refine ⟨fun h6 => ?_, fun hsum => ?_, fun h6 hsum => ?_⟩
  · unfold startGame
    rw [if_pos h6]
  · unfold startGame
    by_cases h6 : g.players.length < 6
    · rw [if_pos h6]
    · rw [if_neg h6, if_pos (by rw [hlen]; exact hsum)]
  · have hnot6 : ¬ g.players.length < 6 := not_lt.mpr h6
    have hle : (rolesToAssign g).length = g.players.length := by rw [hlen, hsum]
    have hshlen : sh.length = g.players.length := by rw [hperm.length_eq, hle]
    have hmr := assignRoles_map_role g.players sh hshlen
    refine ⟨{ g with players := assignRoles g.players sh, phase := GamePhase.night, day_count := 1 }, ?_, rfl, rfl, hmr,
      assignRoles_map_orig g.players sh hshlen,
      assignRoles_map_qq g.players sh,
      assignRoles_map_number g.players sh, ?_⟩
    · unfold startGame
      rw [if_neg hnot6, if_neg (by rw [hle]; simp)]
    · rw [hmr]
      exact hperm.map some

/-- C6 witness: the theorem applied at the concrete six-seat room
`c6Room` with the identity shuffle of its configured role list. -/
theorem c6_start_game_witness :
    ∃ g', startGame c6Room (rolesToAssign c6Room) = some g' ∧
      g'.phase = GamePhase.night ∧ g'.day_count = 1 ∧
      g'.players.map Player.role = (rolesToAssign c6Room).map some ∧
      g'.players.map Player.original_role = (rolesToAssign c6Room).map some ∧
      g'.players.map Player.qq = c6Room.players.map Player.qq ∧
      g'.players.map Player.number = c6Room.players.map Player.number ∧
      (g'.players.map Player.role).Perm ((rolesToAssign c6Room).map some) :=
  (c6_start_game c6Room (rolesToAssign c6Room) (List.Perm.refl _)).2.2
    (by decide) (by decide)

theorem updateFirst_append_cons {q : α → Bool} {f : α → α} {l1 l2 : List α} {x : α}
    (h1 : ∀ y ∈ l1, q y = false) (hx : q x = true) :
    updateFirst q f (l1 ++ x :: l2) = l1 ++ f x :: l2 := by
  induction l1 with
  | nil => simp [updateFirst, hx]
  | cons a t ih =>
      have ha : q a = false := h1 a (List.mem_cons_self a t)
      simp only [List.cons_append, updateFirst, ha, Bool.false_eq_true, if_false,
        List.append_eq]
      rw [ih (fun y hy => h1 y (List.mem_cons_of_mem a hy))]

theorem voteCandidates_of_no_targets (g : Game) (h : voteTargets g = []) :
    voteCandidates g = [] := by
  unfold voteCandidates
  rw [h]
  rfl

theorem processVote_players_of_ge (g : Game) (h : aliveCount g ≤ votedAliveCount g) :
    (processVote g).1.players = (exileStep g).players := by
  unfold processVote
  rw [if_neg (not_lt.mpr h)]
  split <;> rfl

theorem exileStep_of_ne_one (g : Game) (h : (voteCandidates g).length ≠ 1) :
    exileStep g = g := by
  unfold exileStep
  split
  · rfl
  · split
    · rfl
    · cases hc : voteCandidates g with
      | nil => rfl
      | cons a t =>
          cases t with
          | nil => exact absurd (by rw [hc]; rfl) h
          | cons b t2 => rfl

theorem exileStep_of_unique (g : Game) {n : Nat} (hc : voteCandidates g = [n])
    (hne : voteTargets g ≠ []) :
    exileStep g = { g with players := (updateFirst
      (fun p => p.number == n && p.status == PlayerStatus.alive) exileUpdate g.players) } := by
  unfold exileStep
  rw [hc]
  rw [if_neg (by simpa [List.isEmpty_iff] using hne), if_neg (by simp)]

/-- C8 confirmed: once every living player has voted (the resolution
condition) and seat numbers are distinct, a unique maximum over the
living players' votes exiles exactly the living player holding that seat
— status exiled, cause vote — leaving every other seat untouched, while
a shared maximum (including the no-votes tally) exiles nobody and leaves
the player list unchanged. -/
theorem c8_vote_resolution : ∀ (g : Game),
    aliveCount g ≤ votedAliveCount g →
    g.players.Pairwise (fun a b => a.number ≠ b.number) →
    (((voteCandidates g).length ≠ 1 → (processVote g).1.players = g.players) ∧
     (∀ n pl, voteCandidates g = [n] → pl ∈ g.players → pl.number = n →
        pl.status = PlayerStatus.alive →
        ∃ l1 l2, g.players = l1 ++ pl :: l2 ∧
          (processVote g).1.players = l1 ++ exileUpdate pl :: l2 ∧
          (exileUpdate pl).status = PlayerStatus.exiled ∧
          (exileUpdate pl).death_reason = some DeathReason.vote)) := by
  intro g hvoted hpw
  have hpl := processVote_players_of_ge g hvoted
  constructor
  · intro hne1
    rw [hpl, exileStep_of_ne_one g hne1]
  · intro n pl hc hmem hnum hal
    have hne : voteTargets g ≠ [] := by
      intro hempty
      rw [voteCandidates_of_no_targets g hempty] at hc
      cases hc
    obtain ⟨l1, l2, hsplit⟩ := List.append_of_mem hmem
    refine ⟨l1, l2, hsplit, ?_, exileUpdate_status pl, exileUpdate_reason pl⟩
    rw [hpl, exileStep_of_unique g hc hne]
    show updateFirst (fun p => p.number == n && p.status == PlayerStatus.alive)
      exileUpdate g.players = l1 ++ exileUpdate pl :: l2
    rw [hsplit]
    rw [hsplit] at hpw
    apply updateFirst_append_cons
    · intro y hy
      have hyne : y.number ≠ n :=
        hnum ▸ (List.pairwise_append.mp hpw).2.2 y hy pl (List.mem_cons_self _ _)
      simp [hyne]
    · simp [hnum, hal]

/-- C8 witness: the theorem applied at the concrete 2-2 tie room — the
tie exiles nobody and the player list is unchanged. -/
theorem c8_vote_resolution_witness :
    (processVote c8TieRoom).1.players = c8TieRoom.players :=
  (c8_vote_resolution c8TieRoom (by decide) (by decide)).1 (by decide)

/-- At most one live (non-ENDED) room seats any given player identity. -/
def AtMostOneLive (m : Manager) : Prop :=
  ∀ u, m.games.countP (memLive u) ≤ 1

theorem updateFirst_decomp (q : α → Bool) (f : α → α) (l : List α) :
    updateFirst q f l = l ∨
    ∃ l1 x l2, l = l1 ++ x :: l2 ∧ q x = true ∧ (∀ y ∈ l1, q y = false) ∧
      updateFirst q f l = l1 ++ f x :: l2 := by
  induction l with
  | nil => exact Or.inl rfl
  | cons a t ih =>
      by_cases hq : q a
      · exact Or.inr ⟨[], a, t, rfl, hq, by simp, by simp [updateFirst, hq]⟩
      · rcases ih with h | ⟨l1, x, l2, hsplit, hx, hl1, hupd⟩
        · left
          simp [updateFirst, hq, h]
        · right
          refine ⟨a :: l1, x, l2, by rw [List.cons_append, hsplit], hx, ?_, ?_⟩
          · intro y hy
            rcases List.mem_cons.mp hy with rfl | hy'
            · simpa using hq
            · exact hl1 y hy'
          · simp [updateFirst, hq, hupd]

theorem find?_of_decomp {q : α → Bool} {l l1 l2 : List α} {x : α}
    (hsplit : l = l1 ++ x :: l2) (hl1 : ∀ y ∈ l1, q y = false) (hx : q x = true) :
    l.find? q = some x := by
  subst hsplit
  induction l1 with
  | nil => simp [List.find?_cons_of_pos _ hx]
  | cons a t ih =>
      rw [List.cons_append,
        List.find?_cons_of_neg _ (by simp [hl1 a (List.mem_cons_self a t)])]
      exact ih (fun y hy => hl1 y (List.mem_cons_of_mem a hy))

theorem memLive_createGame (u k rid uid gid name : String) :
    memLive u (k, createGame rid uid gid name) = (uid == u) := by
  unfold memLive createGame newPlayer
  simp

theorem memLive_addPlayer (u k uid name : String) (g : Game) :
    memLive u (k, g.addPlayer uid name)
      = (memLive u (k, g) || ((uid == u) && (g.phase != GamePhase.ended))) := by
  cases ha : g.players.any (fun p => p.qq == u) <;> cases hb : uid == u <;>
    cases hc : g.phase == GamePhase.ended <;>
      simp [memLive, Game.addPlayer, newPlayer, List.any_append, bne, ha, hb, hc]

theorem memLive_false_of_not_unfinished {m : Manager} {uid : String}
    (hg : hasUnfinishedGame uid m = false) :
    ∀ rg ∈ m.games, memLive uid rg = false := by
  intro rg hrg
  unfold hasUnfinishedGame at hg
  rw [List.any_eq_false] at hg
  simpa using hg rg hrg

theorem hostCmd_preserves (m : Manager) (uid name gid rid : String)
    (hA : AtMostOneLive m) : AtMostOneLive (hostCmd m uid name gid rid).1 := by
  unfold hostCmd
  by_cases hg : hasUnfinishedGame uid m
  · rw [if_pos hg]
    exact hA
  · rw [if_neg hg]
    have hgf : hasUnfinishedGame uid m = false := by simpa using hg
    intro u
    show (updateAssoc m.games rid (createGame rid uid gid name)).countP (memLive u) ≤ 1
    unfold updateAssoc
    by_cases hk : m.games.any (fun rg => rg.1 == rid)
    · rw [if_pos hk]
      rcases updateFirst_decomp (fun rg => rg.1 == rid)
          (fun rg => (rg.1, createGame rid uid gid name)) m.games with
        h | ⟨l1, x, l2, hsplit, hx, hl1, hupd⟩
      · rw [h]
        exact hA u
      · rw [hupd, List.countP_append, List.countP_cons]
        have hold := hA u
        rw [hsplit, List.countP_append, List.countP_cons] at hold
        cases hu : uid == u
        · have hx2 : memLive u (x.1, createGame rid uid gid name) = false := by
            rw [memLive_createGame, hu]
          rw [hx2]
          simp only [Bool.false_eq_true, if_false]
          omega
        · have hu' : uid = u := by simpa using hu
          subst hu'
          have hc1 : l1.countP (memLive uid) = 0 :=
            List.countP_eq_zero.mpr (fun a ha => by
              simp [memLive_false_of_not_unfinished hgf a
                (by rw [hsplit]; exact List.mem_append_left _ ha)])
          have hc2 : l2.countP (memLive uid) = 0 :=
            List.countP_eq_zero.mpr (fun a ha => by
              simp [memLive_false_of_not_unfinished hgf a
                (by rw [hsplit]
                    exact List.mem_append_right _ (List.mem_cons_of_mem _ ha))])
          rw [hc1, hc2]
          cases memLive uid (x.1, createGame rid uid gid name) <;> simp
    · rw [if_neg hk, List.countP_append, List.countP_cons]
      have hold := hA u
      cases hu : uid == u
      · rw [memLive_createGame, hu]
        simp only [Bool.false_eq_true, if_false, List.countP_nil]
        omega
      · have hu' : uid = u := by simpa using hu
        subst hu'
        have hc0 : m.games.countP (memLive uid) = 0 :=
          List.countP_eq_zero.mpr (fun a ha => by
            simp [memLive_false_of_not_unfinished hgf a ha])
        rw [hc0]
        cases memLive uid (rid, createGame rid uid gid name) <;> simp

theorem joinGame_games (m : Manager) (rid qq name : String) :
    (m.joinGame rid qq name).1.games = m.games ∨
    ∃ rg, m.games.find? (fun e => e.1 == rid) = some rg ∧
      (m.joinGame rid qq name).1.games
        = updateFirst (fun e => e.1 == rid) (fun e => (e.1, rg.2.addPlayer qq name)) m.games := by
  unfold Manager.joinGame
  repeat' split
  all_goals first
    | exact Or.inl rfl
    | (rename_i heq _ _; exact Or.inr ⟨_, heq, rfl⟩)

theorem joinCmd_preserves (m : Manager) (uid name rid : String)
    (hA : AtMostOneLive m) : AtMostOneLive (joinCmd m uid name rid).1 := by
  unfold joinCmd
  by_cases hg : hasUnfinishedGame uid m
  · rw [if_pos hg]
    exact hA
  · rw [if_neg hg]
    have hgf : hasUnfinishedGame uid m = false := by simpa using hg
    intro u
    rcases joinGame_games m rid uid name with h | ⟨rg, hf, h⟩
    · rw [h]
      exact hA u
    · rw [h]
      rcases updateFirst_decomp (fun e => e.1 == rid)
          (fun e => (e.1, rg.2.addPlayer uid name)) m.games with
        h2 | ⟨l1, x, l2, hsplit, hx, hl1, hupd⟩
      · rw [h2]
        exact hA u
      · have hxg : rg = x :=
          Option.some.inj (hf.symm.trans (find?_of_decomp hsplit hl1 hx))
        subst hxg
        rw [hupd, List.countP_append, List.countP_cons]
        have hold := hA u
        rw [hsplit, List.countP_append, List.countP_cons] at hold
        cases hu : uid == u
        · have hx2 : memLive u (rg.1, rg.2.addPlayer uid name) = memLive u rg := by
            rw [memLive_addPlayer, hu]
            simp
          rw [hx2]
          omega
        · have hu' : uid = u := by simpa using hu
          subst hu'
          have hc1 : l1.countP (memLive uid) = 0 :=
            List.countP_eq_zero.mpr (fun a ha => by
              simp [memLive_false_of_not_unfinished hgf a
                (by rw [hsplit]; exact List.mem_append_left _ ha)])
          have hc2 : l2.countP (memLive uid) = 0 :=
            List.countP_eq_zero.mpr (fun a ha => by
              simp [memLive_false_of_not_unfinished hgf a
                (by rw [hsplit]
                    exact List.mem_append_right _ (List.mem_cons_of_mem _ ha))])
          rw [hc1, hc2]
          cases memLive uid (rg.1, rg.2.addPlayer uid name) <;> simp

/-- C10 confirmed: a player already seated in a live (non-ENDED) room is
rejected by both `host` and `join` with the room map unchanged — no room
is created and no seat is assigned — and consequently both commands
preserve the invariant that every player identity is seated in at most
one live room at a time. -/
theorem c10_single_live_room : ∀ (m : Manager) (uid name gid rid : String),
    (hasUnfinishedGame uid m = true →
      hostCmd m uid name gid rid = (m, false) ∧ joinCmd m uid name rid = (m, false)) ∧
    (AtMostOneLive m → AtMostOneLive (hostCmd m uid name gid rid).1) ∧
    (AtMostOneLive m → AtMostOneLive (joinCmd m uid name rid).1) := by
  intro m uid name gid rid
  refine ⟨fun h => ⟨?_, ?_⟩, hostCmd_preserves m uid name gid rid,
    joinCmd_preserves m uid name rid⟩
  · unfold hostCmd
    rw [if_pos h]
  · unfold joinCmd
    rw [if_pos h]

/-- C10 witness: the theorem applied at the concrete manager `m10` whose
only room (a live DAY room) seats player p1 — both commands are rejected
unchanged for p1, and the invariant is preserved for a fresh host. -/
theorem c10_single_live_room_witness :
    hostCmd m10 "p1" "N" "G2" "R2" = (m10, false) ∧
    joinCmd m10 "p1" "N" "R2" = (m10, false) ∧
    AtMostOneLive (hostCmd m10 "u9" "N" "G2" "R2").1 :=
  ⟨((c10_single_live_room m10 "p1" "N" "G2" "R2").1 (by decide)).1,
   ((c10_single_live_room m10 "p1" "N" "G2" "R2").1 (by decide)).2,
   (c10_single_live_room m10 "u9" "N" "G2" "R2").2.1
     (fun u => le_trans (List.countP_le_length _) (by decide))⟩

end Werewolf
